import Mathlib

/-!
Shallow embedding of the eliza-mvp conversational-assistant services:
the Direct Assistant Client (src/src/services/geminiDirectService.ts),
the three serverless edge proxies (src/unnamed/part_000 = Variant A,
src/unnamed/part_001 = Variant B, src/supabase/functions/openai-chat/index.ts
= Variant C), and the Speech Synthesis Wrapper
(src/src/services/enhancedTTSService.ts).

Machine strings are Lean `String`; JS array operations are modelled on
`List`; fallible code returns `Except String`; external effects (the key
manager, the generative model, the AI gateway, the platform speech API)
are supplied as explicit environment records, and mutations of module
state are explicit state passing.
-/

/-- Prefix test on character lists (helper for JS substring containment). -/
def isPrefixList : List Char → List Char → Bool
  | [], _ => true
  | _ :: _, [] => false
  | a :: as, b :: bs => a == b && isPrefixList as bs

/-- Substring containment on character lists. -/
def containsSeq : List Char → List Char → Bool
  | [], needle => needle.isEmpty
  | a :: t, needle => isPrefixList needle (a :: t) || containsSeq t needle

/-- JS `hay.includes(needle)`: needle occurs as a contiguous substring of hay. -/
def strIncludes (hay needle : String) : Bool :=
  containsSeq hay.toList needle.toList

/-- JS `s.toLowerCase()`: character-wise lower-casing (an executable
restatement of String.toLower, which maps Char.toLower over the string). -/
def lowerStr (s : String) : String :=
  String.mk (s.toList.map Char.toLower)

/-- Leading- and trailing-whitespace stripping on character lists. -/
def trimChars (l : List Char) : List Char :=
  ((l.dropWhile Char.isWhitespace).reverse.dropWhile Char.isWhitespace).reverse

/-- JS `s.trim()`: strip leading and trailing whitespace (an executable
restatement of String.trim). -/
def trimStr (s : String) : String :=
  String.mk (trimChars s.toList)

/-- JS `x || d` for a possibly-absent string x: absent and the empty string
both fall back to the default d (empty strings are falsy in JS). -/
def jsOrDefault (v : Option String) (d : String) : String :=
  match v with
  | some s => if s = "" then d else s
  | none => d

/-- Record of the static knowledge base XMRT_KNOWLEDGE_BASE:
immutable category / topic / content triples. -/
structure KnowledgeEntry where
  category : String
  topic : String
  content : String
deriving DecidableEq

/-- Knowledge-base filtering of generateResponse
(geminiDirectService.ts lines 51-54):
`XMRT_KNOWLEDGE_BASE.filter(item =>
   userInput.toLowerCase().includes(item.category.toLowerCase()) ||
   userInput.toLowerCase().includes(item.topic.toLowerCase())).slice(0, 3)`. -/
def relevantKnowledge (kb : List KnowledgeEntry) (userInput : String) :
    List KnowledgeEntry :=
  (kb.filter fun item =>
    strIncludes (lowerStr userInput) (lowerStr item.category) ||
    strIncludes (lowerStr userInput) (lowerStr item.topic)).take 3

/-- JS `arr.slice(-n)` for n > 0: the suffix of the last n elements
(the whole array when it has fewer than n elements). -/
def sliceLast {α : Type} (n : Nat) (l : List α) : List α :=
  l.drop (l.length - n)

/-- Message of the direct client's conversation history
(`m.sender` / `m.content`, geminiDirectService.ts lines 65-67). -/
structure HistoryMsg where
  sender : String
  content : String

/-- Direct client history trimming (geminiDirectService.ts line 63):
`context.conversationHistory.recentMessages?.slice(-5) || []`;
`none` stands for an absent recentMessages field. -/
def directRecentMessages (recent : Option (List HistoryMsg)) : List HistoryMsg :=
  match recent with
  | none => []
  | some l => sliceLast 5 l

/-- Rendering of one history line (geminiDirectService.ts lines 65-67). -/
def renderHistoryLine (m : HistoryMsg) : String :=
  (if m.sender = "user" then "User" else "Eliza") ++ ": " ++ m.content

/-- OpenAI-style chat message with a plain string content. -/
structure ChatMsg where
  role : String
  content : String
deriving DecidableEq

/-- Content of an incoming message for Variant B, which coerces non-string
contents: a JS string, or a non-string value carried by its JSON
serialization. -/
inductive MsgContent where
  | str (s : String)
  | nonString (serialized : String)
deriving DecidableEq

/-- Incoming message of Variant B before coercion. -/
structure RawMsg where
  role : String
  content : MsgContent
deriving DecidableEq

/-- Variant B per-message coercion (part_001 lines 30-33):
`{ role: msg.role, content: typeof msg.content === 'string'
   ? msg.content : JSON.stringify(msg.content) }`. -/
def coerceMsg (m : RawMsg) : ChatMsg :=
  { role := m.role,
    content :=
      match m.content with
      | MsgContent.str s => s
      | MsgContent.nonString j => j }

/-- Variant A outgoing message list (part_000 lines 41-46): a system message
followed by the last 10 incoming messages. -/
def proxyAMessages (systemPrompt : String) (messages : List ChatMsg) :
    List ChatMsg :=
  { role := "system", content := systemPrompt } :: sliceLast 10 messages

/-- Variant B outgoing message list (part_001 lines 27-38): a fixed system
prompt followed by the last 3 incoming messages, coerced. -/
def proxyBMessages (messages : List RawMsg) : List ChatMsg :=
  { role := "system", content := "You are Eliza, an AI assistant for XMRT-DAO." } ::
    (sliceLast 3 messages).map coerceMsg

/-- JSON values, as serialized into proxy response bodies. -/
inductive Json where
  | null
  | bool (b : Bool)
  | num (n : Int)
  | str (s : String)
  | arr (elems : List Json)
  | obj (fields : List (String × Json))

/-- Lookup of a key in a JSON object field list. -/
def lookupField : List (String × Json) → String → Option Json
  | [], _ => none
  | (k, v) :: rest, key => if k = key then some v else lookupField rest key

/-- Lookup of a top-level key of a JSON object. -/
def Json.lookup : Json → String → Option Json
  | Json.obj fields, key => lookupField fields key
  | _, _ => none

/-- Boolean value of a top-level key, when present and boolean. -/
def Json.getBool (j : Json) (key : String) : Option Bool :=
  match j.lookup key with
  | some (Json.bool b) => some b
  | _ => none

/-- Presence of a top-level key in a JSON object. -/
def Json.hasField (j : Json) (key : String) : Bool :=
  (j.lookup key).isSome

/-- Message text of the "error" field of a proxy response body: a flat
string error, or the "message" string of a nested error object. -/
def errText (body : Json) : Option String :=
  match body.lookup "error" with
  | some (Json.str s) => some s
  | some (Json.obj fields) =>
    match lookupField fields "message" with
    | some (Json.str s) => some s
    | _ => none
  | _ => none

/-- Response of the AI gateway as observed by a proxy: the HTTP status, the
raw error body text (read on non-ok statuses), the content of
`choices[0]?.message?.content` (read on ok statuses; `none` when absent),
the parsed `error?.message` of a non-ok JSON error body (Variant C), and
the `usage` / `model` fields echoed by Variant C. -/
structure GatewayResponse where
  status : Nat
  errorBody : String
  choicesContent : Option String
  errorBodyMessage : Option String
  usage : Json
  modelName : Json

/-- Fetch `response.ok`: status in the range 200-299. -/
def responseOk (status : Nat) : Bool :=
  200 ≤ status && status ≤ 299

/-- Request body of Variant A (part_000 line 14): the message list plus the
fields that feed the system prompt (conversationHistory?.summaries rendered
to their summaryText strings, miningStats?.isOnline with its numbers, and
userContext?.isFounder). -/
structure BodyA where
  messages : List ChatMsg
  summaries : Option (List String)
  miningOnline : Bool
  hashRate : Int
  validShares : Int
  isFounder : Bool

/-- Variant A system prompt (part_000 lines 25-39). -/
def systemPromptA (b : BodyA) : String :=
  let p := "You are Eliza, AI assistant for XMRT-DAO. Be conversational and helpful."
  let p :=
    match b.summaries with
    | some ss =>
      match ss.getLast? with
      | some latest => p ++ "\n📚 Context: " ++ latest.take 150
      | none => p
    | none => p
  let p :=
    if b.miningOnline then
      p ++ "\n⛏️ Mining: " ++ toString b.hashRate ++ " H/s, " ++
        toString b.validShares ++ " shares"
    else p
  if b.isFounder then p ++ "\n👤 User: Founder" else p

/-- Request body of Variant B (part_001 line 16): only the message list is
used beyond logging. -/
structure BodyB where
  messages : List RawMsg

/-- Value of the `messages` field of a Variant C request body, as seen by
`!messages || !Array.isArray(messages)`: absent (undefined), present but
falsy (null, 0, empty string, false), present and truthy but not an array,
or an array of messages. -/
inductive MessagesField where
  | absent
  | nonArrayFalsy
  | nonArrayTruthy
  | list (msgs : List ChatMsg)

/-- Variant C validation (index.ts line 18): the message list when
`messages` is present and an array, else none. -/
def msgsArray : MessagesField → Option (List ChatMsg)
  | MessagesField.list msgs => some msgs
  | _ => none

/-- Request body of Variant C (index.ts line 16). The destructured model,
temperature and max_tokens fields are only forwarded verbatim to the
gateway call, which the embedding tracks as a Boolean. -/
structure BodyC where
  messages : MessagesField

/-- Environment of a Variant A invocation: the outcome of `req.json()`, the
LOVABLE_API_KEY environment variable, and the gateway's response. -/
structure ProxyEnvA where
  parseResult : Except String BodyA
  apiKey : Option String
  gateway : GatewayResponse

/-- Environment of a Variant B invocation. -/
structure ProxyEnvB where
  parseResult : Except String BodyB
  apiKey : Option String
  gateway : GatewayResponse

/-- Environment of a Variant C invocation. -/
structure ProxyEnvC where
  parseResult : Except String BodyC
  apiKey : Option String
  gateway : GatewayResponse

/-- Try-block of Variant A (part_000 lines 13-104): ok means an early JSON
response with its HTTP status; error means a thrown Error with its message,
to be handled by the catch-block. -/
def variantATry (env : ProxyEnvA) : Except String (Nat × Json) :=
  match env.parseResult with
  | Except.error e => Except.error e
  | Except.ok body =>
    match env.apiKey with
    | none => Except.error "AI service not configured"
    | some _ =>
      let _geminiMessages := proxyAMessages (systemPromptA body) body.messages
      let resp := env.gateway
      if !responseOk resp.status then
        if resp.status = 429 then
          Except.ok (429, Json.obj [("success", Json.bool false),
            ("error", Json.str "Lovable AI rate limit exceeded. Please try again in a moment.")])
        else if resp.status = 402 then
          Except.ok (402, Json.obj [("success", Json.bool false),
            ("error", Json.str "Lovable AI credits exhausted. Please add credits at Settings → Workspace → Usage.")])
        else
          Except.error ("Lovable AI Gateway error: " ++ toString resp.status ++
            " - " ++ resp.errorBody)
      else
        Except.ok (200, Json.obj [("success", Json.bool true),
          ("response", Json.str (jsOrDefault resp.choicesContent
            "I'm here to help with XMRT-DAO tasks.")),
          ("hasToolCalls", Json.bool false)])

/-- Catch-block body of Variant A (part_000 lines 106-127): a nested error
object. The dynamic timestamp detail is omitted as a clock read. -/
def catchBodyA (msg : String) : Json :=
  Json.obj [("success", Json.bool false),
    ("error", Json.obj [
      ("type", Json.str "invalid_request"),
      ("code", Json.num 400),
      ("message", Json.str msg),
      ("service", Json.str "gemini-chat"),
      ("details", Json.obj [("executive", Json.str "CIO"),
        ("model", Json.str "google/gemini-2.5-pro")]),
      ("canRetry", Json.bool false),
      ("suggestedAction", Json.str "check_request_format")])]

/-- Variant A handler for a non-preflight request: the try-block, with any
thrown error mapped by the catch-block to HTTP 500. -/
def variantAHandle (env : ProxyEnvA) : Nat × Json :=
  match variantATry env with
  | Except.ok r => r
  | Except.error e => (500, catchBodyA e)

/-- Try-block of Variant B (part_001 lines 15-96). -/
def variantBTry (env : ProxyEnvB) : Except String (Nat × Json) :=
  match env.parseResult with
  | Except.error e => Except.error e
  | Except.ok body =>
    match env.apiKey with
    | none => Except.error "AI service not configured"
    | some _ =>
      let _deepseekMessages := proxyBMessages body.messages
      let resp := env.gateway
      if !responseOk resp.status then
        if resp.status = 429 then
          Except.ok (429, Json.obj [("success", Json.bool false),
            ("error", Json.str "Lovable AI rate limit exceeded. Please try again in a moment.")])
        else if resp.status = 402 then
          Except.ok (402, Json.obj [("success", Json.bool false),
            ("error", Json.str "Lovable AI credits exhausted. Please add credits at Settings → Workspace → Usage.")])
        else
          Except.error ("Lovable AI Gateway error: " ++ toString resp.status ++
            " - " ++ resp.errorBody)
      else
        Except.ok (200, Json.obj [("success", Json.bool true),
          ("response", Json.str (jsOrDefault resp.choicesContent
            "I'm here to help with XMRT-DAO tasks.")),
          ("hasToolCalls", Json.bool false)])

/-- Variant B handler: as Variant A but with a flat string error envelope
in the catch-block (part_001 lines 98-107). -/
def variantBHandle (env : ProxyEnvB) : Nat × Json :=
  match variantBTry env with
  | Except.ok r => r
  | Except.error e =>
    (500, Json.obj [("success", Json.bool false), ("error", Json.str e)])

/-- Try-block of Variant C (index.ts lines 15-93): validates the messages
field, reads the key, calls the gateway, maps 429/402, surfaces the parsed
error-body message on other non-ok statuses, and echoes usage and model on
success. -/
def variantCTry (env : ProxyEnvC) : Except String (Nat × Json) :=
  match env.parseResult with
  | Except.error e => Except.error e
  | Except.ok body =>
    match msgsArray body.messages with
    | none => Except.error "Messages array is required"
    | some _msgs =>
      match env.apiKey with
      | none => Except.error "LOVABLE_API_KEY not configured"
      | some _ =>
        let resp := env.gateway
        if !responseOk resp.status then
          if resp.status = 429 then
            Except.ok (429, Json.obj [("success", Json.bool false),
              ("error", Json.str "Rate limit exceeded, please try again later")])
          else if resp.status = 402 then
            Except.ok (402, Json.obj [("success", Json.bool false),
              ("error", Json.str "Payment required, please add credits to your workspace")])
          else
            Except.error (jsOrDefault resp.errorBodyMessage "AI Gateway request failed")
        else
          Except.ok (200, Json.obj [("success", Json.bool true),
            ("response", Json.str (jsOrDefault resp.choicesContent "")),
            ("usage", resp.usage),
            ("model", resp.modelName)])

/-- Variant C handler: the try-block with the catch-block of index.ts lines
95-104 (flat string error, defaulting when the message is empty). -/
def variantCHandle (env : ProxyEnvC) : Nat × Json :=
  match variantCTry env with
  | Except.ok r => r
  | Except.error e =>
    (500, Json.obj [("success", Json.bool false),
      ("error", Json.str (jsOrDefault (some e) "Unknown error occurred"))])

/-- Whether a Variant C invocation reaches the outbound `fetch` to the
gateway: control reaches index.ts line 35 exactly when the body parsed, the
messages field validated, and the key was configured. -/
def variantCGatewayCalled (env : ProxyEnvC) : Bool :=
  match env.parseResult with
  | Except.error _ => false
  | Except.ok body =>
    match msgsArray body.messages with
    | none => false
    | some _ => env.apiKey.isSome

/-- Environment of one generateResponse invocation of the Direct Assistant
Client: the key currently supplied by apiKeyManager.getCurrentApiKey(), and
the outcome of the model call (a thrown Error with its message, or the text
of the response, `none` standing for an absent/undefined text). -/
structure GeminiEnv where
  currentApiKey : Option String
  modelOutcome : Except String (Option String)

/-- Result of GeminiDirectService.initialize (geminiDirectService.ts lines
16-33): the returned Boolean, the memoized genAI client afterwards (a
client is represented by the key it was constructed from), and whether
getCurrentApiKey was consulted. -/
structure InitResult where
  ok : Bool
  genAI : Option String
  keyRead : Bool

/-- GeminiDirectService.initialize: returns true at once when the client is
already memoized; otherwise reads the current key, failing on none and
constructing and memoizing the client otherwise. -/
def initializeService (genAI : Option String) (env : GeminiEnv) : InitResult :=
  match genAI with
  | some c => { ok := true, genAI := some c, keyRead := false }
  | none =>
    match env.currentApiKey with
    | none => { ok := false, genAI := none, keyRead := true }
    | some k => { ok := true, genAI := some k, keyRead := true }

/-- Whether the availability check of generateResponse (geminiDirectService.ts
lines 41-44) passes: a client is memoized or a key is available. -/
def serviceAvailable (genAI : Option String) (env : GeminiEnv) : Bool :=
  genAI.isSome || env.currentApiKey.isSome

/-- Catch-block classification of generateResponse (geminiDirectService.ts
lines 101-114): substring match on the error message. -/
def classifyGeminiError (msg : String) : String :=
  if strIncludes msg "quota" then
    "Gemini API quota exceeded. Please add your own API key or try again later."
  else if strIncludes msg "invalid" then
    "Invalid Gemini API key. Please check your API key configuration."
  else if strIncludes msg "permission" then
    "API key lacks permissions. Please ensure Gemini API is enabled."
  else msg

/-- Result of one generateResponse invocation: the returned text or thrown
error, the memoized client afterwards, whether getCurrentApiKey was read,
whether the model was invoked, and whether markKeyAsWorking was called. -/
structure GenResult where
  outcome : Except String String
  genAI : Option String
  keyRead : Bool
  modelCalled : Bool
  keyMarkedWorking : Bool

/-- GeminiDirectService.generateResponse (geminiDirectService.ts lines
35-115) as a state transformer on the memoized client. Prompt assembly
(buildSystemPrompt, relevantKnowledge, directRecentMessages) only shapes the
string sent to the model and never alters control flow; the model call's
outcome is supplied by the environment. The emptiness test mirrors
`!responseText || responseText.trim().length === 0`, and a thrown
"Empty response from Gemini" passes through the same catch-block
classification as a model error. -/
def generateResponse (genAI : Option String) (env : GeminiEnv) : GenResult :=
  let ini := initializeService genAI env
  if !ini.ok || ini.genAI.isNone then
    { outcome := Except.error "Gemini Direct Service not available - no API key",
      genAI := ini.genAI, keyRead := ini.keyRead,
      modelCalled := false, keyMarkedWorking := false }
  else
    match env.modelOutcome with
    | Except.error e =>
      { outcome := Except.error (classifyGeminiError e),
        genAI := ini.genAI, keyRead := ini.keyRead,
        modelCalled := true, keyMarkedWorking := false }
    | Except.ok t =>
      let empty :=
        match t with
        | none => true
        | some s => s == "" || (trimStr s).length == 0
      if empty then
        { outcome := Except.error (classifyGeminiError "Empty response from Gemini"),
          genAI := ini.genAI, keyRead := ini.keyRead,
          modelCalled := true, keyMarkedWorking := false }
      else
        { outcome := Except.ok (trimStr (t.getD "")),
          genAI := ini.genAI, keyRead := ini.keyRead,
          modelCalled := true, keyMarkedWorking := true }

/-- Fold of a sequence of generateResponse calls over the memoized client
state, also recording whether any call in the sequence read the key. -/
def runCalls (genAI : Option String) : List GeminiEnv → Option String × Bool
  | [] => (genAI, false)
  | env :: rest =>
    let r := generateResponse genAI env
    let later := runCalls r.genAI rest
    (later.1, r.keyRead || later.2)

/-- Terminal playback event of an utterance: the onend event, or an onerror
event carrying its error cause string. -/
inductive PlaybackEvent where
  | ended
  | errored (cause : String)
deriving DecidableEq

/-- Settlement of the promise returned by speak(). -/
inductive SpeakOutcome where
  | resolved
  | rejected (message : String)
deriving DecidableEq

/-- Mutable state of the EnhancedTTSService instance: the held utterance
handle (by identity), the initialization flag, and the last method label. -/
structure TTSState where
  currentUtterance : Option Nat
  isInitialized : Bool
  lastMethod : String

/-- Environment of one speak() invocation: whether `speechSynthesis` exists
in window, the platform's `speechSynthesis.speaking` flag, and the terminal
playback event the platform delivers for the new utterance. -/
structure TTSEnv where
  speechSynthesisAvailable : Bool
  platformSpeaking : Bool
  playback : PlaybackEvent

/-- EnhancedTTSService.speak (enhancedTTSService.ts lines 25-92) for a new
utterance handle u: initialize on first use (its internal catch always
resolves), return resolved at once when the platform capability is absent
(toast only), otherwise cancel any ongoing speech, hold the new utterance,
and settle from the playback event — onend resolves, onerror with the
"canceled" cause resolves, any other cause rejects with a message naming
it; the handle is cleared in every settling path. -/
def speak (st : TTSState) (env : TTSEnv) (u : Nat) : SpeakOutcome × TTSState :=
  let st := if !st.isInitialized then { st with isInitialized := true } else st
  if !env.speechSynthesisAvailable then
    (SpeakOutcome.resolved, st)
  else
    let st := { st with currentUtterance := some u }
    match env.playback with
    | PlaybackEvent.ended =>
      (SpeakOutcome.resolved,
        { st with currentUtterance := none, lastMethod := "Web Speech API" })
    | PlaybackEvent.errored cause =>
      if cause = "canceled" then
        (SpeakOutcome.resolved, { st with currentUtterance := none })
      else
        (SpeakOutcome.rejected ("Speech synthesis error: " ++ cause),
          { st with currentUtterance := none })

/-- EnhancedTTSService.stop (enhancedTTSService.ts lines 125-130). -/
def stop (st : TTSState) : TTSState :=
  match st.currentUtterance with
  | some _ => { st with currentUtterance := none }
  | none => st

/-- EnhancedTTSService.isSpeaking (enhancedTTSService.ts lines 135-137):
`this.currentUtterance !== null && window.speechSynthesis.speaking`; the
platform flag is only consulted when a handle is held (JS short-circuit). -/
def isSpeaking (st : TTSState) (env : TTSEnv) : Bool :=
  st.currentUtterance.isSome && env.platformSpeaking

/-- Demo gateway response used by the concrete witnesses. -/
def demoGateway (status : Nat) : GatewayResponse :=
  { status := status, errorBody := "upstream error", choicesContent := none,
    errorBodyMessage := none, usage := Json.null, modelName := Json.null }

/-- Demo Variant A request body used by the concrete witnesses. -/
def demoBodyA : BodyA :=
  { messages := [], summaries := none, miningOnline := false,
    hashRate := 0, validShares := 0, isFounder := false }

/-- Demo TTS state used by the concrete witnesses. -/
def demoTTSState : TTSState :=
  { currentUtterance := none, isInitialized := false,
    lastMethod := "Web Speech API" }

/-- Demo Variant A environment with a well-formed request and a gateway
response of the given status. -/
def demoEnvA (status : Nat) : ProxyEnvA :=
  { parseResult := Except.ok demoBodyA, apiKey := some "k",
    gateway := demoGateway status }

/-- Demo Variant B environment. -/
def demoEnvB (status : Nat) : ProxyEnvB :=
  { parseResult := Except.ok { messages := [] }, apiKey := some "k",
    gateway := demoGateway status }

/-- Demo Variant C environment with a valid messages array. -/
def demoEnvC (status : Nat) : ProxyEnvC :=
  { parseResult := Except.ok { messages := MessagesField.list [] },
    apiKey := some "k", gateway := demoGateway status }

/-- Demo Variant A environment whose request body fails to parse. -/
def demoEnvAErr : ProxyEnvA :=
  { parseResult := Except.error "bad json", apiKey := some "k",
    gateway := demoGateway 200 }

/-- Demo Variant B environment whose request body fails to parse. -/
def demoEnvBErr : ProxyEnvB :=
  { parseResult := Except.error "bad json", apiKey := some "k",
    gateway := demoGateway 200 }

/-- Demo Variant C environment whose request body fails to parse. -/
def demoEnvCErr : ProxyEnvC :=
  { parseResult := Except.error "bad json", apiKey := some "k",
    gateway := demoGateway 200 }

/-- Demo Variant C environment whose request body has no messages array. -/
def demoEnvCNoMsgs : ProxyEnvC :=
  { parseResult := Except.ok { messages := MessagesField.absent },
    apiKey := some "k", gateway := demoGateway 200 }

/-- Demo Direct Assistant Client environment with no current key and the
given model outcome. -/
def demoGeminiEnv (outcome : Except String (Option String)) : GeminiEnv :=
  { currentApiKey := none, modelOutcome := outcome }

/-- Demo TTS environment with the given capability flag and playback
event. -/
def demoTTSEnv (available : Bool) (playback : PlaybackEvent) : TTSEnv :=
  { speechSynthesisAvailable := available, platformSpeaking := false,
    playback := playback }

/-! ## Helper lemmas -/

theorem sliceLast_length_le {α : Type} (n : Nat) (l : List α) :
    (sliceLast n l).length ≤ n := by
  simp [sliceLast]
  omega

theorem sliceLast_suffix {α : Type} (n : Nat) (l : List α) :
    sliceLast n l <:+ l :=
  List.drop_suffix _ _

/-! ## Claims -/

/-- C1: For every user input string, the Direct Assistant Client's
knowledge-base filtering returns at most 3 entries, and every returned
entry has a category or topic that occurs as a case-insensitive substring
of the user input. -/
theorem C1_knowledge_filter_sound (kb : List KnowledgeEntry) (userInput : String) :
    (relevantKnowledge kb userInput).length ≤ 3 ∧
    ∀ e ∈ relevantKnowledge kb userInput,
      strIncludes (lowerStr userInput) (lowerStr e.category) = true ∨
      strIncludes (lowerStr userInput) (lowerStr e.topic) = true := by
  refine ⟨List.length_take_le 3 _, ?_⟩
  intro e he
  have h1 := List.of_mem_filter (List.mem_of_mem_take he)
  simpa using h1

/-- Concrete instantiation of C1_knowledge_filter_sound. -/
theorem C1_knowledge_filter_sound_witness :
    (relevantKnowledge [KnowledgeEntry.mk "Mining" "XMR" "c"] "tell me about MINING").length ≤ 3 ∧
    (strIncludes (lowerStr "tell me about MINING") (lowerStr "Mining") = true ∨
     strIncludes (lowerStr "tell me about MINING") (lowerStr "XMR") = true) :=
  ⟨(C1_knowledge_filter_sound [KnowledgeEntry.mk "Mining" "XMR" "c"] "tell me about MINING").1,
   (C1_knowledge_filter_sound [KnowledgeEntry.mk "Mining" "XMR" "c"] "tell me about MINING").2
     (KnowledgeEntry.mk "Mining" "XMR" "c") (by decide)⟩

/-- C2: For every supplied conversation history / message list, the
outgoing payload contains at most the last 5 messages (Direct Assistant
Client), the last 10 (proxy Variant A), or the last 3 (proxy Variant B),
and the included messages appear in their original order (each is a suffix
of the input list; Variant B's suffix is coerced element-wise, preserving
order). -/
theorem C2_payload_trimming :
    (∀ recent : Option (List HistoryMsg),
      (directRecentMessages recent).length ≤ 5 ∧
      directRecentMessages recent <:+ recent.getD []) ∧
    (∀ (prompt : String) (messages : List ChatMsg),
      ((proxyAMessages prompt messages).drop 1).length ≤ 10 ∧
      (proxyAMessages prompt messages).drop 1 <:+ messages) ∧
    (∀ messages : List RawMsg,
      (sliceLast 3 messages).length ≤ 3 ∧
      sliceLast 3 messages <:+ messages ∧
      (proxyBMessages messages).drop 1 = (sliceLast 3 messages).map coerceMsg) := by
  refine ⟨?_, ?_, ?_⟩
  · intro recent
    cases recent with
    | none => exact ⟨by simp [directRecentMessages], by simp [directRecentMessages]⟩
    | some l => exact ⟨sliceLast_length_le 5 l, sliceLast_suffix 5 l⟩
  · intro prompt messages
    constructor
    · simpa [proxyAMessages] using sliceLast_length_le 10 messages
    · simpa [proxyAMessages] using sliceLast_suffix 10 messages
  · intro messages
    exact ⟨sliceLast_length_le 3 messages, sliceLast_suffix 3 messages,
      by simp [proxyBMessages]⟩

/-- C3: For each of the three edge proxies, a gateway response with HTTP
status 429 yields a proxy response with status 429, success:false, and a
rate-limit-flavored error message, and a gateway response with HTTP status
402 yields status 402, success:false, and a credits-flavored error
message. -/
theorem C3_status_mapping :
    (∀ (env : ProxyEnvA) (b : BodyA) (k : String),
      env.parseResult = Except.ok b → env.apiKey = some k →
      env.gateway.status = 429 →
      (variantAHandle env).1 = 429 ∧
      ((variantAHandle env).2).getBool "success" = some false ∧
      (errText ((variantAHandle env).2)).any
        (fun m => strIncludes (lowerStr m) "rate limit") = true) ∧
    (∀ (env : ProxyEnvA) (b : BodyA) (k : String),
      env.parseResult = Except.ok b → env.apiKey = some k →
      env.gateway.status = 402 →
      (variantAHandle env).1 = 402 ∧
      ((variantAHandle env).2).getBool "success" = some false ∧
      (errText ((variantAHandle env).2)).any
        (fun m => strIncludes (lowerStr m) "credits") = true) ∧
    (∀ (env : ProxyEnvB) (b : BodyB) (k : String),
      env.parseResult = Except.ok b → env.apiKey = some k →
      env.gateway.status = 429 →
      (variantBHandle env).1 = 429 ∧
      ((variantBHandle env).2).getBool "success" = some false ∧
      (errText ((variantBHandle env).2)).any
        (fun m => strIncludes (lowerStr m) "rate limit") = true) ∧
    (∀ (env : ProxyEnvB) (b : BodyB) (k : String),
      env.parseResult = Except.ok b → env.apiKey = some k →
      env.gateway.status = 402 →
      (variantBHandle env).1 = 402 ∧
      ((variantBHandle env).2).getBool "success" = some false ∧
      (errText ((variantBHandle env).2)).any
        (fun m => strIncludes (lowerStr m) "credits") = true) ∧
    (∀ (env : ProxyEnvC) (b : BodyC) (msgs : List ChatMsg) (k : String),
      env.parseResult = Except.ok b → msgsArray b.messages = some msgs →
      env.apiKey = some k → env.gateway.status = 429 →
      (variantCHandle env).1 = 429 ∧
      ((variantCHandle env).2).getBool "success" = some false ∧
      (errText ((variantCHandle env).2)).any
        (fun m => strIncludes (lowerStr m) "rate limit") = true) ∧
    (∀ (env : ProxyEnvC) (b : BodyC) (msgs : List ChatMsg) (k : String),
      env.parseResult = Except.ok b → msgsArray b.messages = some msgs →
      env.apiKey = some k → env.gateway.status = 402 →
      (variantCHandle env).1 = 402 ∧
      ((variantCHandle env).2).getBool "success" = some false ∧
      (errText ((variantCHandle env).2)).any
        (fun m => strIncludes (lowerStr m) "credits") = true) := by
  have h429 : responseOk 429 = false := by decide
  have h402 : responseOk 402 = false := by decide
  refine ⟨?_, ?_, ?_, ?_, ?_, ?_⟩
  · intro env b k hb hk hs
    simp [variantAHandle, variantATry, hb, hk, hs, h429]
    exact ⟨by decide, by decide⟩
  · intro env b k hb hk hs
    simp [variantAHandle, variantATry, hb, hk, hs, h402]
    exact ⟨by decide, by decide⟩
  · intro env b k hb hk hs
    simp [variantBHandle, variantBTry, hb, hk, hs, h429]
    exact ⟨by decide, by decide⟩
  · intro env b k hb hk hs
    simp [variantBHandle, variantBTry, hb, hk, hs, h402]
    exact ⟨by decide, by decide⟩
  · intro env b msgs k hb hm hk hs
    simp [variantCHandle, variantCTry, hb, hm, hk, hs, h429]
    exact ⟨by decide, by decide⟩
  · intro env b msgs k hb hm hk hs
    simp [variantCHandle, variantCTry, hb, hm, hk, hs, h402]
    exact ⟨by decide, by decide⟩

/-- Concrete instantiation of C3_status_mapping for every variant and both
statuses. -/
theorem C3_status_mapping_witness :
    ((variantAHandle (demoEnvA 429)).1 = 429 ∧
      ((variantAHandle (demoEnvA 429)).2).getBool "success" = some false ∧
      (errText ((variantAHandle (demoEnvA 429)).2)).any
        (fun m => strIncludes (lowerStr m) "rate limit") = true) ∧
    ((variantAHandle (demoEnvA 402)).1 = 402 ∧
      ((variantAHandle (demoEnvA 402)).2).getBool "success" = some false ∧
      (errText ((variantAHandle (demoEnvA 402)).2)).any
        (fun m => strIncludes (lowerStr m) "credits") = true) ∧
    ((variantBHandle (demoEnvB 429)).1 = 429 ∧
      ((variantBHandle (demoEnvB 429)).2).getBool "success" = some false ∧
      (errText ((variantBHandle (demoEnvB 429)).2)).any
        (fun m => strIncludes (lowerStr m) "rate limit") = true) ∧
    ((variantBHandle (demoEnvB 402)).1 = 402 ∧
      ((variantBHandle (demoEnvB 402)).2).getBool "success" = some false ∧
      (errText ((variantBHandle (demoEnvB 402)).2)).any
        (fun m => strIncludes (lowerStr m) "credits") = true) ∧
    ((variantCHandle (demoEnvC 429)).1 = 429 ∧
      ((variantCHandle (demoEnvC 429)).2).getBool "success" = some false ∧
      (errText ((variantCHandle (demoEnvC 429)).2)).any
        (fun m => strIncludes (lowerStr m) "rate limit") = true) ∧
    ((variantCHandle (demoEnvC 402)).1 = 402 ∧
      ((variantCHandle (demoEnvC 402)).2).getBool "success" = some false ∧
      (errText ((variantCHandle (demoEnvC 402)).2)).any
        (fun m => strIncludes (lowerStr m) "credits") = true) :=
  ⟨C3_status_mapping.1 (demoEnvA 429) demoBodyA "k" rfl rfl rfl,
   C3_status_mapping.2.1 (demoEnvA 402) demoBodyA "k" rfl rfl rfl,
   C3_status_mapping.2.2.1 (demoEnvB 429) { messages := [] } "k" rfl rfl rfl,
   C3_status_mapping.2.2.2.1 (demoEnvB 402) { messages := [] } "k" rfl rfl rfl,
   C3_status_mapping.2.2.2.2.1 (demoEnvC 429) { messages := MessagesField.list [] } [] "k" rfl rfl rfl rfl,
   C3_status_mapping.2.2.2.2.2 (demoEnvC 402) { messages := MessagesField.list [] } [] "k" rfl rfl rfl rfl⟩

theorem variantAHandle_success_field (env : ProxyEnvA) :
    ((variantAHandle env).2).hasField "success" = true := by
  have c429 : responseOk 429 = false := by decide
  have c402 : responseOk 402 = false := by decide
  rcases env with ⟨pr, ak, gw⟩
  rcases pr with e | body
  · simp [variantAHandle, variantATry, catchBodyA, Json.hasField, Json.lookup, lookupField]
  · rcases ak with _ | k
    · simp [variantAHandle, variantATry, catchBodyA, Json.hasField, Json.lookup, lookupField]
    · by_cases hok : responseOk gw.status
      · simp [variantAHandle, variantATry, hok, Json.hasField, Json.lookup, lookupField]
      · by_cases h429 : gw.status = 429
        · simp [variantAHandle, variantATry, hok, h429, c429, Json.hasField,
            Json.lookup, lookupField]
        · by_cases h402 : gw.status = 402
          · simp [variantAHandle, variantATry, hok, h429, h402, c402, Json.hasField,
              Json.lookup, lookupField]
          · simp [variantAHandle, variantATry, hok, h429, h402, catchBodyA,
              Json.hasField, Json.lookup, lookupField]

theorem variantBHandle_success_field (env : ProxyEnvB) :
    ((variantBHandle env).2).hasField "success" = true := by
  have c429 : responseOk 429 = false := by decide
  have c402 : responseOk 402 = false := by decide
  rcases env with ⟨pr, ak, gw⟩
  rcases pr with e | body
  · simp [variantBHandle, variantBTry, Json.hasField, Json.lookup, lookupField]
  · rcases ak with _ | k
    · simp [variantBHandle, variantBTry, Json.hasField, Json.lookup, lookupField]
    · by_cases hok : responseOk gw.status
      · simp [variantBHandle, variantBTry, hok, Json.hasField, Json.lookup, lookupField]
      · by_cases h429 : gw.status = 429
        · simp [variantBHandle, variantBTry, hok, h429, c429, Json.hasField,
            Json.lookup, lookupField]
        · by_cases h402 : gw.status = 402
          · simp [variantBHandle, variantBTry, hok, h429, h402, c402, Json.hasField,
              Json.lookup, lookupField]
          · simp [variantBHandle, variantBTry, hok, h429, h402, Json.hasField,
              Json.lookup, lookupField]

theorem variantCHandle_success_field (env : ProxyEnvC) :
    ((variantCHandle env).2).hasField "success" = true := by
  have c429 : responseOk 429 = false := by decide
  have c402 : responseOk 402 = false := by decide
  rcases env with ⟨pr, ak, gw⟩
  rcases pr with e | body
  · simp [variantCHandle, variantCTry, Json.hasField, Json.lookup, lookupField]
  · rcases hm : msgsArray body.messages with _ | msgs
    · simp [variantCHandle, variantCTry, hm, Json.hasField, Json.lookup, lookupField]
    · rcases ak with _ | k
      · simp [variantCHandle, variantCTry, hm, Json.hasField, Json.lookup, lookupField]
      · by_cases hok : responseOk gw.status
        · simp [variantCHandle, variantCTry, hm, hok, Json.hasField, Json.lookup, lookupField]
        · by_cases h429 : gw.status = 429
          · simp [variantCHandle, variantCTry, hm, hok, h429, c429, Json.hasField,
              Json.lookup, lookupField]
          · by_cases h402 : gw.status = 402
            · simp [variantCHandle, variantCTry, hm, hok, h429, h402, c402,
                Json.hasField, Json.lookup, lookupField]
            · simp [variantCHandle, variantCTry, hm, hok, h429, h402, Json.hasField,
                Json.lookup, lookupField]

/-- C4: For every request and every exception raised inside a proxy handler
(body parse failure, missing environment key, gateway failure other than
429/402, or any other uncaught error), each of the three edge proxies
responds with HTTP status 500 and a JSON body containing success:false and
an error field; and every handler result is a JSON envelope carrying a
success field, so no code path yields a non-JSON body or no response. -/
theorem C4_catch_envelope :
    (∀ (env : ProxyEnvA) (e : String), variantATry env = Except.error e →
      (variantAHandle env).1 = 500 ∧
      ((variantAHandle env).2).getBool "success" = some false ∧
      ((variantAHandle env).2).hasField "error" = true) ∧
    (∀ (env : ProxyEnvB) (e : String), variantBTry env = Except.error e →
      (variantBHandle env).1 = 500 ∧
      ((variantBHandle env).2).getBool "success" = some false ∧
      ((variantBHandle env).2).hasField "error" = true) ∧
    (∀ (env : ProxyEnvC) (e : String), variantCTry env = Except.error e →
      (variantCHandle env).1 = 500 ∧
      ((variantCHandle env).2).getBool "success" = some false ∧
      ((variantCHandle env).2).hasField "error" = true) ∧
    (∀ env : ProxyEnvA, ((variantAHandle env).2).hasField "success" = true) ∧
    (∀ env : ProxyEnvB, ((variantBHandle env).2).hasField "success" = true) ∧
    (∀ env : ProxyEnvC, ((variantCHandle env).2).hasField "success" = true) := by
  refine ⟨?_, ?_, ?_, variantAHandle_success_field, variantBHandle_success_field,
    variantCHandle_success_field⟩
  · intro env e h
    simp [variantAHandle, h, catchBodyA, Json.getBool, Json.hasField, Json.lookup,
      lookupField]
  · intro env e h
    simp [variantBHandle, h, Json.getBool, Json.hasField, Json.lookup, lookupField]
  · intro env e h
    simp [variantCHandle, h, Json.getBool, Json.hasField, Json.lookup, lookupField]

/-- Concrete instantiation of C4_catch_envelope: each proxy's try-block
throws on a body parse failure and the handler produces the 500 JSON
envelope. -/
theorem C4_catch_envelope_witness :
    ((variantAHandle demoEnvAErr).1 = 500 ∧
      ((variantAHandle demoEnvAErr).2).getBool "success" = some false ∧
      ((variantAHandle demoEnvAErr).2).hasField "error" = true) ∧
    ((variantBHandle demoEnvBErr).1 = 500 ∧
      ((variantBHandle demoEnvBErr).2).getBool "success" = some false ∧
      ((variantBHandle demoEnvBErr).2).hasField "error" = true) ∧
    ((variantCHandle demoEnvCErr).1 = 500 ∧
      ((variantCHandle demoEnvCErr).2).getBool "success" = some false ∧
      ((variantCHandle demoEnvCErr).2).hasField "error" = true) :=
  ⟨C4_catch_envelope.1 demoEnvAErr "bad json" rfl,
   C4_catch_envelope.2.1 demoEnvBErr "bad json" rfl,
   C4_catch_envelope.2.2.1 demoEnvCErr "bad json" rfl⟩

/-- C5: For every input, if the model response text is absent, empty, or
consists only of whitespace, generateResponse of the Direct Assistant
Client throws (rejects) rather than returning an empty string; on non-empty
text it reports the key as healthy and returns the trimmed text. -/
theorem C5_empty_model_response (genAI : Option String) (env : GeminiEnv)
    (t : Option String)
    (hav : serviceAvailable genAI env = true)
    (ht : env.modelOutcome = Except.ok t) :
    ((t = none ∨ t = some "" ∨ (∃ s, t = some s ∧ (trimStr s).length = 0)) →
      (generateResponse genAI env).outcome =
        Except.error "Empty response from Gemini") ∧
    (∀ s, t = some s → s ≠ "" → (trimStr s).length ≠ 0 →
      (generateResponse genAI env).outcome = Except.ok (trimStr s) ∧
      (generateResponse genAI env).keyMarkedWorking = true) := by
  have hclass : classifyGeminiError "Empty response from Gemini" =
      "Empty response from Gemini" := by decide
  have hini : (initializeService genAI env).ok = true ∧
      (initializeService genAI env).genAI.isNone = false := by
    rcases genAI with _ | c
    · rcases hk : env.currentApiKey with _ | k
      · simp [serviceAvailable, hk] at hav
      · simp [initializeService, hk]
    · simp [initializeService]
  constructor
  · intro hemp
    rcases hemp with h | h | ⟨s, hs, hlen⟩
    · simp [generateResponse, hini.1, hini.2, ht, h, hclass]
    · simp [generateResponse, hini.1, hini.2, ht, h, hclass]
    · simp [generateResponse, hini.1, hini.2, ht, hs, hlen, hclass]
  · intro s hs hne hlen
    have h1 : (s == "") = false := by simpa using hne
    have h2 : ((trimStr s).length == 0) = false := by simpa using hlen
    simp [generateResponse, hini.1, hini.2, ht, hs, h1, h2]

/-- Concrete instantiation of C5_empty_model_response: a whitespace-only
model response is rejected, a non-empty one is trimmed, returned and marks
the key as working. -/
theorem C5_empty_model_response_witness :
    (generateResponse (some "k") (demoGeminiEnv (Except.ok (some "   ")))).outcome =
      Except.error "Empty response from Gemini" ∧
    (generateResponse (some "k") (demoGeminiEnv (Except.ok (some " hi ")))).outcome =
      Except.ok (trimStr " hi ") ∧
    (generateResponse (some "k") (demoGeminiEnv (Except.ok (some " hi ")))).keyMarkedWorking =
      true :=
  ⟨(C5_empty_model_response (some "k") (demoGeminiEnv (Except.ok (some "   ")))
      (some "   ") (by decide) rfl).1 (Or.inr (Or.inr ⟨"   ", rfl, by decide⟩)),
   ((C5_empty_model_response (some "k") (demoGeminiEnv (Except.ok (some " hi ")))
      (some " hi ") (by decide) rfl).2 " hi " rfl (by decide) (by decide)).1,
   ((C5_empty_model_response (some "k") (demoGeminiEnv (Except.ok (some " hi ")))
      (some " hi ") (by decide) rfl).2 " hi " rfl (by decide) (by decide)).2⟩

/-- C6: For every request body in which the messages field is absent or is
not an array, proxy Variant C fails with a validation error mentioning that
a messages array is required, and it issues no outbound gateway call for
that request. -/
theorem C6_messages_validation (env : ProxyEnvC) (b : BodyC)
    (hb : env.parseResult = Except.ok b)
    (hm : msgsArray b.messages = none) :
    (variantCHandle env).1 = 500 ∧
    ((variantCHandle env).2).getBool "success" = some false ∧
    errText ((variantCHandle env).2) = some "Messages array is required" ∧
    variantCGatewayCalled env = false := by
  simp [variantCHandle, variantCTry, variantCGatewayCalled, hb, hm, jsOrDefault,
    Json.getBool, Json.lookup, lookupField, errText]

/-- Concrete instantiation of C6_messages_validation on a body whose
messages field is absent. -/
theorem C6_messages_validation_witness :
    (variantCHandle demoEnvCNoMsgs).1 = 500 ∧
    ((variantCHandle demoEnvCNoMsgs).2).getBool "success" = some false ∧
    errText ((variantCHandle demoEnvCNoMsgs).2) = some "Messages array is required" ∧
    variantCGatewayCalled demoEnvCNoMsgs = false :=
  C6_messages_validation demoEnvCNoMsgs { messages := MessagesField.absent } rfl rfl

/-- C7: When no API key is configured (the key provider returns null and no
client has been constructed), generateResponse of the Direct Assistant
Client fails with a thrown error, and no model call is made. -/
theorem C7_missing_key (env : GeminiEnv) (hk : env.currentApiKey = none) :
    (generateResponse none env).outcome =
      Except.error "Gemini Direct Service not available - no API key" ∧
    (generateResponse none env).modelCalled = false := by
  simp [generateResponse, initializeService, hk]

/-- Concrete instantiation of C7_missing_key. -/
theorem C7_missing_key_witness :
    (generateResponse none (demoGeminiEnv (Except.ok (some "hi")))).outcome =
      Except.error "Gemini Direct Service not available - no API key" ∧
    (generateResponse none (demoGeminiEnv (Except.ok (some "hi")))).modelCalled = false :=
  C7_missing_key (demoGeminiEnv (Except.ok (some "hi"))) rfl

/-- C8: For every speak() call of the Speech Wrapper with the platform
capability present: the returned promise resolves when playback ends; if a
playback error event fires whose error cause is the cancellation code
("canceled"), the promise resolves rather than rejects; for any other
playback error cause it rejects with an error naming that cause. -/
theorem C8_speak_settlement (st : TTSState) (env : TTSEnv) (u : Nat)
    (hav : env.speechSynthesisAvailable = true) :
    (env.playback = PlaybackEvent.ended → (speak st env u).1 = SpeakOutcome.resolved) ∧
    (env.playback = PlaybackEvent.errored "canceled" →
      (speak st env u).1 = SpeakOutcome.resolved) ∧
    (∀ cause, env.playback = PlaybackEvent.errored cause → cause ≠ "canceled" →
      (speak st env u).1 = SpeakOutcome.rejected ("Speech synthesis error: " ++ cause)) := by
  refine ⟨?_, ?_, ?_⟩
  · intro h
    simp [speak, hav, h]
  · intro h
    simp [speak, hav, h]
  · intro cause h hne
    simp [speak, hav, h, hne]

/-- Concrete instantiation of C8_speak_settlement for the three playback
events. -/
theorem C8_speak_settlement_witness :
    (speak demoTTSState (demoTTSEnv true PlaybackEvent.ended) 0).1 =
      SpeakOutcome.resolved ∧
    (speak demoTTSState (demoTTSEnv true (PlaybackEvent.errored "canceled")) 0).1 =
      SpeakOutcome.resolved ∧
    (speak demoTTSState (demoTTSEnv true (PlaybackEvent.errored "network")) 0).1 =
      SpeakOutcome.rejected ("Speech synthesis error: " ++ "network") :=
  ⟨(C8_speak_settlement demoTTSState (demoTTSEnv true PlaybackEvent.ended) 0 rfl).1 rfl,
   (C8_speak_settlement demoTTSState
     (demoTTSEnv true (PlaybackEvent.errored "canceled")) 0 rfl).2.1 rfl,
   (C8_speak_settlement demoTTSState
     (demoTTSEnv true (PlaybackEvent.errored "network")) 0 rfl).2.2 "network" rfl
     (by decide)⟩

/-- C9: The Direct Assistant Client constructs at most one model-client
instance per process: once a client has been memoized, every later
generateResponse call reuses that same instance, never re-reads the key
from the key provider during initialization, and never replaces or clears
the memoized instance — both for a single call and along any sequence of
calls. -/
theorem C9_client_memoization (c : String) (envs : List GeminiEnv) :
    (∀ env : GeminiEnv,
      (generateResponse (some c) env).genAI = some c ∧
      (generateResponse (some c) env).keyRead = false) ∧
    runCalls (some c) envs = (some c, false) := by
  have step : ∀ env : GeminiEnv,
      (generateResponse (some c) env).genAI = some c ∧
      (generateResponse (some c) env).keyRead = false := by
    intro env
    rcases ho : env.modelOutcome with e | t
    · simp [generateResponse, initializeService, ho]
    · rcases t with _ | s
      · simp [generateResponse, initializeService, ho]
      · by_cases hemp : (s == "" || (trimStr s).length == 0) = true
        · simp [generateResponse, initializeService, ho, hemp]
        · simp [generateResponse, initializeService, ho, hemp]
  refine ⟨step, ?_⟩
  induction envs with
  | nil => rfl
  | cons e rest ih =>
    have hs := step e
    simp [runCalls, hs.1, hs.2, ih]

/-- C10: If the platform speech-synthesis capability is absent from the
environment, speak() of the Speech Wrapper returns a promise that resolves
(it does not reject and does not throw), no utterance handle is stored, and
isSpeaking() remains false. -/
theorem C10_capability_absent (st : TTSState) (env : TTSEnv) (u : Nat)
    (hav : env.speechSynthesisAvailable = false)
    (hcur : st.currentUtterance = none) :
    (speak st env u).1 = SpeakOutcome.resolved ∧
    ((speak st env u).2).currentUtterance = none ∧
    (∀ env2 : TTSEnv, isSpeaking ((speak st env u).2) env2 = false) := by
  refine ⟨?_, ?_, ?_⟩
  · simp [speak, hav]
  · simp [speak, hav]
    split <;> simp [hcur]
  · intro env2
    simp [speak, hav, isSpeaking]
    split <;> simp [hcur]

/-- Concrete instantiation of C10_capability_absent. -/
theorem C10_capability_absent_witness :
    (speak demoTTSState (demoTTSEnv false PlaybackEvent.ended) 0).1 =
      SpeakOutcome.resolved ∧
    ((speak demoTTSState (demoTTSEnv false PlaybackEvent.ended) 0).2).currentUtterance =
      none ∧
    isSpeaking ((speak demoTTSState (demoTTSEnv false PlaybackEvent.ended) 0).2)
      (demoTTSEnv false PlaybackEvent.ended) = false :=
  ⟨(C10_capability_absent demoTTSState (demoTTSEnv false PlaybackEvent.ended) 0 rfl rfl).1,
   (C10_capability_absent demoTTSState (demoTTSEnv false PlaybackEvent.ended) 0 rfl rfl).2.1,
   (C10_capability_absent demoTTSState (demoTTSEnv false PlaybackEvent.ended) 0 rfl rfl).2.2
     (demoTTSEnv false PlaybackEvent.ended)⟩
